import Mathlib

/-
Shallow embedding of `pkg/service/adapters/auth/repository_user.go` from
contentforward/bolt-ui.

Modelling decisions:
- The bbolt bucket "users" is an association list from the key (a string,
  the username) to the stored `user` record.  `json.Marshal` / `json.Unmarshal`
  round-trip faithfully on records produced by this code, so the store holds
  the typed records directly and serialization is the identity.
- `errors.New`, `errors.Wrap` and the sentinel `auth.ErrUnauthorized` are an
  inductive error type; `Err.isUnauthorized` walks the wrap (cause) chain the
  way `errors.Is` does.
- The `PasswordHasher` and `AccessTokenGenerator` collaborators are records of
  fallible functions, as in the Go interfaces.
- `time.Now()` is an explicit `now : Nat` argument of `CheckAccessToken`; the
  Go zero value of `time.Time` on a fresh session is `none`.
- Each operation returns its Go results together with the post-state of the
  store; a transaction whose closure fails is rolled back, so on error the
  returned store is the input store.
-/

namespace BoltAuth

/-- `errors.New`, `errors.Wrap(inner, msg)` and the sentinel
`auth.ErrUnauthorized`. -/
inductive Err where
  | new : String → Err
  | wrap : Err → String → Err
  | unauthorized : Err
deriving DecidableEq, Repr

/-- Walks the cause chain like `errors.Is(err, auth.ErrUnauthorized)`. -/
def Err.isUnauthorized : Err → Bool
  | .unauthorized => true
  | .wrap e _ => e.isUnauthorized
  | .new _ => false

/-- `type PasswordHash []byte`. -/
abbrev PasswordHash := List Nat

/-- `auth.AccessToken` (an opaque string). -/
abbrev AccessToken := String

/-- The embedded `session` struct: `Token` plus `LastSeen`, which is the
`time.Time` zero value (`none`) until first touched by `CheckAccessToken`. -/
structure session where
  Token : AccessToken
  LastSeen : Option Nat
deriving DecidableEq, Repr

/-- The persisted `user` struct. -/
structure user where
  Username : String
  Password : PasswordHash
  Sessions : List session
deriving DecidableEq, Repr

/-- `auth.User`, the minimal view returned by `CheckAccessToken`: it has a
username field only, no password material. -/
structure AuthUser where
  Username : String
deriving DecidableEq, Repr

/-- The `PasswordHasher` collaborator interface. -/
structure PasswordHasher where
  Hash : String → Except Err PasswordHash
  Compare : PasswordHash → String → Except Err Unit

/-- The `AccessTokenGenerator` collaborator interface. -/
structure AccessTokenGenerator where
  Generate : String → Except Err AccessToken
  GetUsername : AccessToken → Except Err String

/-- The bbolt bucket "users": keys to serialized user records. -/
abbrev Store := List (String × user)

/-- `b.Get(key)` on the bucket. -/
def bGet : Store → String → Option user
  | [], _ => none
  | (k, v) :: rest, key => if k = key then some v else bGet rest key

/-- `b.Put(key, value)` on the bucket: replace in place, or append a new key. -/
def bPut : Store → String → user → Store
  | [], key, v => [(key, v)]
  | (k, w) :: rest, key, v =>
      if k = key then (key, v) :: rest else (k, w) :: bPut rest key v

/-- `bucketIsEmpty`: the cursor finds no first key. -/
def bucketIsEmpty (s : Store) : Bool := s.isEmpty

/-- `Count()`: `b.Stats().KeyN`, the number of keys in the bucket. -/
def Count (s : Store) : Nat := s.length

/-- `UserRepository.validate`. -/
def validate (username password : String) : Option Err :=
  if username = "" then some (.new "username can\x27t be empty")
  else if password = "" then some (.new "password can\x27t be empty")
  else none

/-- Result of `RegisterInitial`: the Go error plus the post-transaction
store. -/
structure RegisterResult where
  err : Option Err
  store : Store
deriving DecidableEq, Repr

/-- `UserRepository.RegisterInitial`: validate, hash, then inside one write
transaction refuse unless the bucket is empty, else put the fresh record. -/
def RegisterInitial (r : PasswordHasher) (s : Store) (username password : String) :
    RegisterResult :=
  match validate username password with
  | some e => ⟨some (.wrap e "invalid parameters"), s⟩
  | none =>
    match r.Hash password with
    | .error e => ⟨some (.wrap e "hashing the password failed"), s⟩
    | .ok passwordHash =>
      let u : user := ⟨username, passwordHash, []⟩
      if bucketIsEmpty s then ⟨none, bPut s u.Username u⟩
      else ⟨some (.new "there are existing users"), s⟩

/-- Result of `Login`: the token (`""` on failure, as in Go), the error, and
the post-transaction store. -/
structure LoginResult where
  token : AccessToken
  err : Option Err
  store : Store
deriving DecidableEq, Repr

/-- `UserRepository.Login`: validate, then inside one write transaction load
the user, compare the password, mint a token, append a session and put the
record back; any closure error is wrapped as "transaction failed" and rolls
the transaction back. -/
def Login (r : PasswordHasher) (g : AccessTokenGenerator) (s : Store)
    (username password : String) : LoginResult :=
  match validate username password with
  | some e => ⟨"", some (.wrap e "invalid parameters"), s⟩
  | none =>
    match bGet s username with
    | none => ⟨"", some (.wrap (.new "user does not exist") "transaction failed"), s⟩
    | some u =>
      match r.Compare u.Password password with
      | .error e =>
          ⟨"", some (.wrap (.wrap e "invalid credentials") "transaction failed"), s⟩
      | .ok _ =>
        match g.Generate username with
        | .error e =>
            ⟨"", some (.wrap (.wrap e "could not create an access token")
                  "transaction failed"), s⟩
        | .ok t =>
            let u2 : user := { u with Sessions := u.Sessions ++ [⟨t, none⟩] }
            ⟨t, none, bPut s username u2⟩

/-- Result of `CheckAccessToken`: the `auth.User` view (zero value on
failure), the error, and the post-transaction store. -/
structure CheckResult where
  user : AuthUser
  err : Option Err
  store : Store
deriving DecidableEq, Repr

/-- The session-scan loop of `CheckAccessToken`: set `LastSeen` of the first
session whose token matches and stop; `none` when no session matches. -/
def updateSessions : List session → AccessToken → Nat → Option (List session)
  | [], _, _ => none
  | sess :: rest, token, now =>
      if sess.Token = token then some ({ sess with LastSeen := some now } :: rest)
      else
        match updateSessions rest token now with
        | none => none
        | some rest2 => some (sess :: rest2)

/-- `UserRepository.CheckAccessToken`: resolve the token to a username
(failure is the bare `auth.ErrUnauthorized`), then inside one write
transaction load the user (absent user fails the closure with
`auth.ErrUnauthorized`), touch the first matching session and put the record
back under its `Username` field (`putUser`); closure errors are wrapped as
"transaction failed" and roll the transaction back. -/
def CheckAccessToken (g : AccessTokenGenerator) (s : Store) (token : AccessToken)
    (now : Nat) : CheckResult :=
  match g.GetUsername token with
  | .error _ => ⟨⟨""⟩, some .unauthorized, s⟩
  | .ok username =>
    match bGet s username with
    | none => ⟨⟨""⟩, some (.wrap .unauthorized "transaction failed"), s⟩
    | some u =>
      match updateSessions u.Sessions token now with
      | none => ⟨⟨""⟩, some (.wrap (.new "invalid token") "transaction failed"), s⟩
      | some newSessions =>
          let u2 : user := { u with Sessions := newSessions }
          ⟨⟨u2.Username⟩, none, bPut s u2.Username u2⟩

/-- `UserRepository.Logout`: returns `errors.New("not implemented")` without
touching the database, so the store passes through unchanged. -/
def Logout (s : Store) (_token : AccessToken) : Option Err × Store :=
  (some (.new "not implemented"), s)

/-- A concrete hasher for witnesses: the hash of `p` is `[p.length]`. -/
def demoHasher : PasswordHasher where
  Hash := fun p => .ok [p.length]
  Compare := fun h p => if h = [p.length] then .ok () else .error (.new "mismatch")

/-- A concrete token generator for witnesses: it mints `"tok-" ++ u` and
recognises the tokens of the two demo users. -/
def demoGenerator : AccessTokenGenerator where
  Generate := fun u => .ok ("tok-" ++ u)
  GetUsername := fun t =>
    if t = "tok-alice" then .ok "alice"
    else if t = "tok-bob" then .ok "bob"
    else .error (.new "bad token")

/-- A concrete non-empty store for counterexamples. -/
def demoStore : Store := [("alice", ⟨"alice", [6], []⟩)]

/-- `errors.Is(err, auth.ErrUnauthorized)` on an optional error. -/
def errCauseUnauthorized : Option Err → Bool
  | some e => e.isUnauthorized
  | none => false

/- ------------------------------------------------------------------ -/
/- Helper lemmas -/
/- ------------------------------------------------------------------ -/

/-- With both fields non-empty, `validate` passes. -/
theorem validate_eq_none {u p : String} (hu : u ≠ "") (hp : p ≠ "") :
    validate u p = none := by
  simp [validate, hu, hp]

/-- Reading back the key just written returns the written record. -/
theorem bGet_bPut_self (s : Store) (k : String) (v : user) :
    bGet (bPut s k v) k = some v := by
  induction s with
  | nil => simp [bPut, bGet]
  | cons hd tl ih =>
      obtain ⟨k', v'⟩ := hd
      by_cases h : k' = k
      · simp [bPut, bGet, h]
      · simp [bPut, bGet, h, ih]

/-- The scan loop finds nothing when no session carries the token. -/
theorem updateSessions_eq_none (l : List session) (t : AccessToken) (now : Nat)
    (h : ∀ x ∈ l, x.Token ≠ t) : updateSessions l t now = none := by
  induction l with
  | nil => simp [updateSessions]
  | cons hd tl ih =>
      have hhd : hd.Token ≠ t := h hd (List.mem_cons_self hd tl)
      have htl : ∀ x ∈ tl, x.Token ≠ t := fun x hx => h x (List.mem_cons_of_mem hd hx)
      simp [updateSessions, hhd, ih htl]

/-- The scan loop touches exactly the first matching session and keeps the
prefix and the tail verbatim. -/
theorem updateSessions_append (pre : List session) (sess : session)
    (post : List session) (t : AccessToken) (now : Nat)
    (hpre : ∀ x ∈ pre, x.Token ≠ t) (htok : sess.Token = t) :
    updateSessions (pre ++ sess :: post) t now =
      some (pre ++ { sess with LastSeen := some now } :: post) := by
  induction pre with
  | nil => simp [updateSessions, htok]
  | cons hd tl ih =>
      have hhd : hd.Token ≠ t := hpre hd (List.mem_cons_self hd tl)
      have htl : ∀ x ∈ tl, x.Token ≠ t := fun x hx => hpre x (List.mem_cons_of_mem hd hx)
      simp [updateSessions, hhd, ih htl]

/- ------------------------------------------------------------------ -/
/- Claim theorems -/
/- ------------------------------------------------------------------ -/

/-- Claim C9: for every token and every store state, `Logout` returns the
"not implemented" error (it never succeeds) and leaves the entire store
unchanged; the Go body returns before opening any transaction, reading or
writing. -/
theorem C9_logout_always_fails (s : Store) (t : AccessToken) :
    Logout s t = (some (.new "not implemented"), s) := rfl

/-- Claim C2: with an empty username or an empty password, `RegisterInitial`
and `Login` both return the wrapped validation error and an unchanged store;
the result does not depend on the password hasher or the token generator (so
neither collaborator is consulted), and `Count` is unchanged. -/
theorem C2_validation_guards (h h2 : PasswordHasher) (g g2 : AccessTokenGenerator)
    (s : Store) (u p : String) (e : Err)
    (_hemp : u = "" ∨ p = "") (hv : validate u p = some e) :
    RegisterInitial h s u p = ⟨some (.wrap e "invalid parameters"), s⟩ ∧
    Login h g s u p = ⟨"", some (.wrap e "invalid parameters"), s⟩ ∧
    RegisterInitial h s u p = RegisterInitial h2 s u p ∧
    Login h g s u p = Login h2 g2 s u p ∧
    Count (RegisterInitial h s u p).store = Count s ∧
    Count (Login h g s u p).store = Count s := by
  simp [RegisterInitial, Login, hv]

/-- Witness for C2 at `u = ""`, `p = "x"`. -/
theorem C2_validation_guards_witness :
    RegisterInitial demoHasher demoStore "" "x" =
      ⟨some (.wrap (.new "username can\x27t be empty") "invalid parameters"), demoStore⟩ ∧
    Login demoHasher demoGenerator demoStore "" "x" =
      ⟨"", some (.wrap (.new "username can\x27t be empty") "invalid parameters"), demoStore⟩ ∧
    RegisterInitial demoHasher demoStore "" "x" = RegisterInitial demoHasher demoStore "" "x" ∧
    Login demoHasher demoGenerator demoStore "" "x" =
      Login demoHasher demoGenerator demoStore "" "x" ∧
    Count (RegisterInitial demoHasher demoStore "" "x").store = Count demoStore ∧
    Count (Login demoHasher demoGenerator demoStore "" "x").store = Count demoStore :=
  C2_validation_guards demoHasher demoHasher demoGenerator demoGenerator demoStore
    "" "x" (.new "username can\x27t be empty") (Or.inl rfl) rfl

/-- Claim C3: whenever `Login` fails — for any modelled reason (validation,
missing user, password mismatch, token generation failure) — the store is
exactly the one passed in (every record unchanged) and the returned token is
the empty string. -/
theorem C3_login_failure_frame (h : PasswordHasher) (g : AccessTokenGenerator)
    (s : Store) (u p : String)
    (hfail : (Login h g s u p).err.isSome = true) :
    (Login h g s u p).store = s ∧ (Login h g s u p).token = "" := by
  unfold Login at hfail ⊢
  cases hv : validate u p with
  | some e => simp [hv]
  | none =>
    cases hg : bGet s u with
    | none => simp [hv, hg]
    | some rec =>
      cases hc : h.Compare rec.Password p with
      | error e => simp [hv, hg, hc]
      | ok r =>
        cases hgen : g.Generate u with
        | error e => simp [hv, hg, hc, hgen]
        | ok t => simp [hv, hg, hc, hgen] at hfail

/-- Witness for C3: a login against a store without the user fails. -/
theorem C3_login_failure_frame_witness :
    (Login demoHasher demoGenerator demoStore "bob" "x").store = demoStore ∧
    (Login demoHasher demoGenerator demoStore "bob" "x").token = "" :=
  C3_login_failure_frame demoHasher demoGenerator demoStore "bob" "x" (by decide)

/-- Claim C4: a login with valid fields against a stored record whose hash
matches the password mints exactly the token `Generate u` returns, appends
exactly one session carrying that token with `LastSeen` unset to the end of
the stored session list (the previous sessions kept verbatim and in order),
writes the record back under key `u`, and returns that token. -/
theorem C4_login_success (h : PasswordHasher) (g : AccessTokenGenerator)
    (s : Store) (u p : String) (rec : user) (t : AccessToken)
    (hu : u ≠ "") (hp : p ≠ "")
    (hget : bGet s u = some rec)
    (hcmp : h.Compare rec.Password p = .ok ())
    (hgen : g.Generate u = .ok t) :
    Login h g s u p =
      ⟨t, none, bPut s u { rec with Sessions := rec.Sessions ++ [⟨t, none⟩] }⟩ := by
  simp [Login, validate_eq_none hu hp, hget, hcmp, hgen]

/-- Witness for C4: logging in as alice/secret against the demo store. -/
theorem C4_login_success_witness :
    Login demoHasher demoGenerator demoStore "alice" "secret" =
      ⟨"tok-alice", none,
        bPut demoStore "alice" ⟨"alice", [6], [⟨"tok-alice", none⟩]⟩⟩ :=
  C4_login_success demoHasher demoGenerator demoStore "alice" "secret"
    ⟨"alice", [6], []⟩ "tok-alice" (by decide) (by decide) rfl rfl rfl

/-- Counterexample to claim C1 as stated: against the non-empty demo store,
`RegisterInitial("", "x")` fails with the wrapped validation error, not the
Conflict-style "there are existing users" error — validation runs before the
emptiness check. -/
theorem C1_counterexample :
    bucketIsEmpty demoStore = false ∧
    (RegisterInitial demoHasher demoStore "" "x").err =
      some (.wrap (.new "username can\x27t be empty") "invalid parameters") ∧
    (RegisterInitial demoHasher demoStore "" "x").err ≠
      some (.new "there are existing users") := by
  refine ⟨rfl, rfl, by decide⟩

/-- Claim C1 (amended): with non-empty credentials and a successful hash,
`RegisterInitial` against an empty store succeeds, stores exactly the one
fresh record (empty session list) under the username, and `Count` becomes 1;
against a non-empty store it fails with the Conflict error "there are
existing users", writes nothing, and `Count` is unchanged.  (Calls with an
empty field fail with a validation error instead — see `C1_counterexample` —
and also write nothing, per C2.) -/
theorem C1_register_initial (h : PasswordHasher) (s1 s2 : Store)
    (u p u2 p2 : String) (hash hash2 : PasswordHash)
    (hu : u ≠ "") (hp : p ≠ "") (hh : h.Hash p = .ok hash)
    (hu2 : u2 ≠ "") (hp2 : p2 ≠ "") (hh2 : h.Hash p2 = .ok hash2)
    (h1 : bucketIsEmpty s1 = true) (h2 : bucketIsEmpty s2 = false) :
    RegisterInitial h s1 u p = ⟨none, [(u, ⟨u, hash, []⟩)]⟩ ∧
    Count (RegisterInitial h s1 u p).store = 1 ∧
    RegisterInitial h s2 u2 p2 = ⟨some (.new "there are existing users"), s2⟩ ∧
    Count (RegisterInitial h s2 u2 p2).store = Count s2 := by
  have hs1 : s1 = [] := by
    cases s1 with
    | nil => rfl
    | cons hd tl => simp [bucketIsEmpty] at h1
  subst hs1
  have hs2 : s2 ≠ [] := by
    intro he
    subst he
    simp [bucketIsEmpty] at h2
  refine ⟨?_, ?_, ?_, ?_⟩ <;>
    simp [RegisterInitial, validate_eq_none hu hp, validate_eq_none hu2 hp2,
      hh, hh2, hs2, bucketIsEmpty, bPut, Count]

/-- Witness for the amended C1: registering admin/pw into the empty store
succeeds with one record; registering bob/pw against the demo store hits the
Conflict error. -/
theorem C1_register_initial_witness :
    RegisterInitial demoHasher [] "admin" "pw" =
      ⟨none, [("admin", ⟨"admin", [2], []⟩)]⟩ ∧
    Count (RegisterInitial demoHasher [] "admin" "pw").store = 1 ∧
    RegisterInitial demoHasher demoStore "bob" "pw" =
      ⟨some (.new "there are existing users"), demoStore⟩ ∧
    Count (RegisterInitial demoHasher demoStore "bob" "pw").store = Count demoStore :=
  C1_register_initial demoHasher [] demoStore "admin" "pw" "bob" "pw" [2] [2]
    (by decide) (by decide) rfl (by decide) (by decide) rfl rfl rfl

/-- Counterexample to claim C5 as stated: against the demo store, the
"no such user" failure (`bob`) and the "wrong password" failure
(`alice`/`wrong`) surface *different* error values, so a caller inspecting
the returned error can tell the two cases apart. -/
theorem C5_counterexample :
    (Login demoHasher demoGenerator demoStore "bob" "x").err =
      some (.wrap (.new "user does not exist") "transaction failed") ∧
    (Login demoHasher demoGenerator demoStore "alice" "wrong").err =
      some (.wrap (.wrap (.new "mismatch") "invalid credentials") "transaction failed") ∧
    (Login demoHasher demoGenerator demoStore "bob" "x").err ≠
      (Login demoHasher demoGenerator demoStore "alice" "wrong").err := by
  refine ⟨rfl, rfl, by decide⟩

/-- Claim C5 (amended): both failing runs return an error and the empty
token, and neither error carries the typed `auth.ErrUnauthorized` sentinel —
so no *typed* distinction is made — but the two error values always differ
("user does not exist" against an "invalid credentials" wrap), so the caller
can distinguish the two causes from the returned error. -/
theorem C5_login_failure_errors (h : PasswordHasher) (g1 g2 : AccessTokenGenerator)
    (s1 s2 : Store) (u1 p1 u2 p2 : String) (rec : user) (e : Err)
    (hu1 : u1 ≠ "") (hp1 : p1 ≠ "")
    (hu2 : u2 ≠ "") (hp2 : p2 ≠ "")
    (habsent : bGet s1 u1 = none)
    (hget : bGet s2 u2 = some rec)
    (hcmp : h.Compare rec.Password p2 = .error e) :
    (Login h g1 s1 u1 p1).token = "" ∧
    (Login h g1 s1 u1 p1).err =
      some (.wrap (.new "user does not exist") "transaction failed") ∧
    (Login h g2 s2 u2 p2).token = "" ∧
    (Login h g2 s2 u2 p2).err =
      some (.wrap (.wrap e "invalid credentials") "transaction failed") ∧
    errCauseUnauthorized (Login h g1 s1 u1 p1).err = false ∧
    (Login h g1 s1 u1 p1).err ≠ (Login h g2 s2 u2 p2).err := by
  refine ⟨?_, ?_, ?_, ?_, ?_, ?_⟩ <;>
    simp [Login, validate_eq_none hu1 hp1, validate_eq_none hu2 hp2,
      habsent, hget, hcmp, errCauseUnauthorized, Err.isUnauthorized]

/-- Witness for the amended C5: the two failing demo logins. -/
theorem C5_login_failure_errors_witness :
    (Login demoHasher demoGenerator demoStore "bob" "x").token = "" ∧
    (Login demoHasher demoGenerator demoStore "bob" "x").err =
      some (.wrap (.new "user does not exist") "transaction failed") ∧
    (Login demoHasher demoGenerator demoStore "alice" "wrong").token = "" ∧
    (Login demoHasher demoGenerator demoStore "alice" "wrong").err =
      some (.wrap (.wrap (.new "mismatch") "invalid credentials") "transaction failed") ∧
    errCauseUnauthorized (Login demoHasher demoGenerator demoStore "bob" "x").err = false ∧
    (Login demoHasher demoGenerator demoStore "bob" "x").err ≠
      (Login demoHasher demoGenerator demoStore "alice" "wrong").err :=
  C5_login_failure_errors demoHasher demoGenerator demoGenerator demoStore demoStore
    "bob" "x" "alice" "wrong" ⟨"alice", [6], []⟩ (.new "mismatch")
    (by decide) (by decide) (by decide) (by decide) rfl rfl rfl

/-- Claim C6: when the generator resolves token `t` to `u`, the store holds a
well-formed record for `u` (its `Username` field equals its key), and some
session carries `t` (decomposed at the first match), `CheckAccessToken` sets
that session's `LastSeen` to the current time, persists the updated record
under key `u`, and returns the view `⟨u⟩` — the `AuthUser` view type carries
the username only, so the password hash is never exposed. -/
theorem C6_check_success (g : AccessTokenGenerator) (s : Store) (t : AccessToken)
    (u : String) (rec : user) (now : Nat) (pre post : List session) (sess : session)
    (hres : g.GetUsername t = .ok u)
    (hget : bGet s u = some rec)
    (hwf : rec.Username = u)
    (hdec : rec.Sessions = pre ++ sess :: post)
    (hpre : ∀ x ∈ pre, x.Token ≠ t)
    (htok : sess.Token = t) :
    CheckAccessToken g s t now =
      ⟨⟨u⟩, none,
        bPut s u { rec with Sessions := pre ++ { sess with LastSeen := some now } :: post }⟩ := by
  have hupd := updateSessions_append pre sess post t now hpre htok
  simp [CheckAccessToken, hres, hget, hdec, hupd, hwf]

/-- Witness for C6: validating alice's token against a store holding her one
session. -/
theorem C6_check_success_witness :
    CheckAccessToken demoGenerator
        [("alice", ⟨"alice", [6], [⟨"tok-alice", none⟩]⟩)] "tok-alice" 5 =
      ⟨⟨"alice"⟩, none,
        bPut [("alice", ⟨"alice", [6], [⟨"tok-alice", none⟩]⟩)] "alice"
          ⟨"alice", [6], [⟨"tok-alice", some 5⟩]⟩⟩ :=
  C6_check_success demoGenerator [("alice", ⟨"alice", [6], [⟨"tok-alice", none⟩]⟩)]
    "tok-alice" "alice" ⟨"alice", [6], [⟨"tok-alice", none⟩]⟩ 5
    [] [] ⟨"tok-alice", none⟩ rfl rfl rfl rfl (by simp) rfl

/-- Claim C7: the three failing runs of `CheckAccessToken` — unresolvable
token, resolved username without a stored record, and resolved user whose
session list does not contain the token — all return the zero user view and
leave the store untouched; in the first two runs the surfaced error carries
the `auth.ErrUnauthorized` cause. -/
theorem C7_check_token_failures (g1 g2 g3 : AccessTokenGenerator)
    (s1 s2 s3 : Store) (t1 t2 t3 : AccessToken) (n1 n2 n3 : Nat)
    (e1 : Err) (u2 u3 : String) (rec3 : user)
    (h1 : g1.GetUsername t1 = .error e1)
    (h2a : g2.GetUsername t2 = .ok u2) (h2b : bGet s2 u2 = none)
    (h3a : g3.GetUsername t3 = .ok u3) (h3b : bGet s3 u3 = some rec3)
    (h3c : ∀ x ∈ rec3.Sessions, x.Token ≠ t3) :
    CheckAccessToken g1 s1 t1 n1 = ⟨⟨""⟩, some .unauthorized, s1⟩ ∧
    errCauseUnauthorized (CheckAccessToken g1 s1 t1 n1).err = true ∧
    CheckAccessToken g2 s2 t2 n2 =
      ⟨⟨""⟩, some (.wrap .unauthorized "transaction failed"), s2⟩ ∧
    errCauseUnauthorized (CheckAccessToken g2 s2 t2 n2).err = true ∧
    CheckAccessToken g3 s3 t3 n3 =
      ⟨⟨""⟩, some (.wrap (.new "invalid token") "transaction failed"), s3⟩ := by
  have h3 := updateSessions_eq_none rec3.Sessions t3 n3 h3c
  refine ⟨?_, ?_, ?_, ?_, ?_⟩ <;>
    simp [CheckAccessToken, h1, h2a, h2b, h3a, h3b, h3,
      errCauseUnauthorized, Err.isUnauthorized]

/-- Witness for C7: a garbage token, bob's token with no record for bob, and
alice's token against a record of hers with no sessions. -/
theorem C7_check_token_failures_witness :
    CheckAccessToken demoGenerator demoStore "garbage" 0 =
      ⟨⟨""⟩, some .unauthorized, demoStore⟩ ∧
    errCauseUnauthorized (CheckAccessToken demoGenerator demoStore "garbage" 0).err = true ∧
    CheckAccessToken demoGenerator demoStore "tok-bob" 0 =
      ⟨⟨""⟩, some (.wrap .unauthorized "transaction failed"), demoStore⟩ ∧
    errCauseUnauthorized (CheckAccessToken demoGenerator demoStore "tok-bob" 0).err = true ∧
    CheckAccessToken demoGenerator demoStore "tok-alice" 0 =
      ⟨⟨""⟩, some (.wrap (.new "invalid token") "transaction failed"), demoStore⟩ :=
  C7_check_token_failures demoGenerator demoGenerator demoGenerator
    demoStore demoStore demoStore "garbage" "tok-bob" "tok-alice" 0 0 0
    (.new "bad token") "bob" "alice" ⟨"alice", [6], []⟩
    rfl rfl rfl rfl rfl (by simp [demoStore])

/-- Claim C8: a successful `CheckAccessToken` changes only the first matching
session's `LastSeen`: the session count is unchanged, the prefix and tail of
the session list are kept verbatim, the record's `Username` and `Password`
are kept, and the updated record can be read back under the same key; a
second successful call at a later time `now2 ≥ now` moves that `LastSeen`
from `some now` to `some now2`, so repeated calls update it monotonically
without adding or duplicating sessions. -/
theorem C8_check_frame_and_monotone (g : AccessTokenGenerator) (s : Store)
    (t : AccessToken) (u : String) (rec : user) (now now2 : Nat)
    (pre post : List session) (sess : session)
    (hmono : now ≤ now2)
    (hres : g.GetUsername t = .ok u) (hget : bGet s u = some rec)
    (hwf : rec.Username = u)
    (hdec : rec.Sessions = pre ++ sess :: post)
    (hpre : ∀ x ∈ pre, x.Token ≠ t) (htok : sess.Token = t) :
    CheckAccessToken g s t now =
      ⟨⟨u⟩, none,
        bPut s u { rec with Sessions := pre ++ { sess with LastSeen := some now } :: post }⟩ ∧
    bGet (CheckAccessToken g s t now).store u =
      some { rec with Sessions := pre ++ { sess with LastSeen := some now } :: post } ∧
    (pre ++ { sess with LastSeen := some now } :: post).length = rec.Sessions.length ∧
    ({ rec with Sessions := pre ++ { sess with LastSeen := some now } :: post } : user).Username
      = rec.Username ∧
    ({ rec with Sessions := pre ++ { sess with LastSeen := some now } :: post } : user).Password
      = rec.Password ∧
    now ≤ now2 ∧
    CheckAccessToken g
        (bPut s u { rec with Sessions := pre ++ { sess with LastSeen := some now } :: post })
        t now2 =
      ⟨⟨u⟩, none,
        bPut (bPut s u { rec with Sessions := pre ++ { sess with LastSeen := some now } :: post })
          u { rec with Sessions := pre ++ { sess with LastSeen := some now2 } :: post }⟩ := by
  subst hwf
  have hupd := updateSessions_append pre sess post t now hpre htok
  have hfirst : CheckAccessToken g s t now =
      ⟨⟨rec.Username⟩, none,
        bPut s rec.Username
          { rec with Sessions := pre ++ { sess with LastSeen := some now } :: post }⟩ := by
    simp [CheckAccessToken, hres, hget, hdec, hupd]
  have hget2 : bGet (bPut s rec.Username
      { rec with Sessions := pre ++ { sess with LastSeen := some now } :: post })
        rec.Username =
      some { rec with Sessions := pre ++ { sess with LastSeen := some now } :: post } :=
    bGet_bPut_self ..
  have htok2 : ({ sess with LastSeen := some now } : session).Token = t := htok
  have hupd2 := updateSessions_append pre { sess with LastSeen := some now } post t now2
    hpre htok2
  refine ⟨hfirst, ?_, ?_, rfl, rfl, hmono, ?_⟩
  · rw [hfirst]
    exact hget2
  · simp [hdec]
  · simp [CheckAccessToken, hres, hget2, hupd2]

/-- Witness for C8: touching alice's session at time 5 and again at 9. -/
theorem C8_check_frame_and_monotone_witness :
    CheckAccessToken demoGenerator
        [("alice", ⟨"alice", [6], [⟨"tok-alice", none⟩]⟩)] "tok-alice" 5 =
      ⟨⟨"alice"⟩, none,
        bPut [("alice", ⟨"alice", [6], [⟨"tok-alice", none⟩]⟩)] "alice"
          ⟨"alice", [6], [⟨"tok-alice", some 5⟩]⟩⟩ ∧
    bGet (CheckAccessToken demoGenerator
        [("alice", ⟨"alice", [6], [⟨"tok-alice", none⟩]⟩)] "tok-alice" 5).store "alice" =
      some ⟨"alice", [6], [⟨"tok-alice", some 5⟩]⟩ ∧
    ([] ++ (⟨"tok-alice", some 5⟩ : session) :: []).length =
      ([⟨"tok-alice", none⟩] : List session).length ∧
    (⟨"alice", [6], [⟨"tok-alice", some 5⟩]⟩ : user).Username = "alice" ∧
    (⟨"alice", [6], [⟨"tok-alice", some 5⟩]⟩ : user).Password = [6] ∧
    5 ≤ 9 ∧
    CheckAccessToken demoGenerator
        (bPut [("alice", ⟨"alice", [6], [⟨"tok-alice", none⟩]⟩)] "alice"
          ⟨"alice", [6], [⟨"tok-alice", some 5⟩]⟩) "tok-alice" 9 =
      ⟨⟨"alice"⟩, none,
        bPut (bPut [("alice", ⟨"alice", [6], [⟨"tok-alice", none⟩]⟩)] "alice"
            ⟨"alice", [6], [⟨"tok-alice", some 5⟩]⟩) "alice"
          ⟨"alice", [6], [⟨"tok-alice", some 9⟩]⟩⟩ :=
  C8_check_frame_and_monotone demoGenerator
    [("alice", ⟨"alice", [6], [⟨"tok-alice", none⟩]⟩)] "tok-alice" "alice"
    ⟨"alice", [6], [⟨"tok-alice", none⟩]⟩ 5 9 [] [] ⟨"tok-alice", none⟩
    (by decide) rfl rfl rfl rfl (by simp) rfl

/-- Claim C10: when the session list holds several sessions with the same
token, a successful `CheckAccessToken` updates `LastSeen` of only the first
one in list order — the tail `post`, which may hold further sessions with the
same token (such as `sess2`), is kept verbatim. -/
theorem C10_first_match_only (g : AccessTokenGenerator) (s : Store) (t : AccessToken)
    (u : String) (rec : user) (now : Nat) (pre post : List session) (sess sess2 : session)
    (hres : g.GetUsername t = .ok u) (hget : bGet s u = some rec)
    (hwf : rec.Username = u)
    (hdec : rec.Sessions = pre ++ sess :: post)
    (hpre : ∀ x ∈ pre, x.Token ≠ t) (htok : sess.Token = t)
    (hdup : sess2 ∈ post) (_hdup2 : sess2.Token = t) :
    CheckAccessToken g s t now =
      ⟨⟨u⟩, none,
        bPut s u { rec with Sessions := pre ++ { sess with LastSeen := some now } :: post }⟩ ∧
    sess2 ∈ (pre ++ { sess with LastSeen := some now } :: post) := by
  have hupd := updateSessions_append pre sess post t now hpre htok
  constructor
  · simp [CheckAccessToken, hres, hget, hdec, hupd, hwf]
  · exact List.mem_append_right _ (List.mem_cons_of_mem _ hdup)

/-- Witness for C10: alice's record holds two sessions with the same token;
validating at time 9 touches only the first, the duplicate keeps
`LastSeen = some 3`. -/
theorem C10_first_match_only_witness :
    CheckAccessToken demoGenerator
        [("alice", ⟨"alice", [6], [⟨"tok-alice", none⟩, ⟨"tok-alice", some 3⟩]⟩)]
        "tok-alice" 9 =
      ⟨⟨"alice"⟩, none,
        bPut [("alice", ⟨"alice", [6], [⟨"tok-alice", none⟩, ⟨"tok-alice", some 3⟩]⟩)]
          "alice" ⟨"alice", [6], [⟨"tok-alice", some 9⟩, ⟨"tok-alice", some 3⟩]⟩⟩ ∧
    (⟨"tok-alice", some 3⟩ : session) ∈
      ([] ++ (⟨"tok-alice", some 9⟩ : session) :: [⟨"tok-alice", some 3⟩]) :=
  C10_first_match_only demoGenerator
    [("alice", ⟨"alice", [6], [⟨"tok-alice", none⟩, ⟨"tok-alice", some 3⟩]⟩)]
    "tok-alice" "alice" ⟨"alice", [6], [⟨"tok-alice", none⟩, ⟨"tok-alice", some 3⟩]⟩ 9
    [] [⟨"tok-alice", some 3⟩] ⟨"tok-alice", none⟩ ⟨"tok-alice", some 3⟩
    rfl rfl rfl rfl (by simp) rfl (by simp) rfl

end BoltAuth
